import Mathlib

/-!
# Verification of the PKCE auth/session core of the spotify-stats-app repository

This file gives a shallow embedding of `src/services/spotifyAuth.ts` and the
error-handling path of `src/services/spotifyApi.ts`, and proves / refutes the
frozen claims about them.

Modelling conventions:
* `localStorage` is modelled as an association list `Store` from string keys to
  string values; `storeGet` returns the most recent binding, `storeSet`
  prepends a binding (observably identical to overwrite), `storeRemove`
  deletes all bindings of a key (observably identical to `removeItem`).
* JavaScript numbers that the code actually manipulates are integers
  (epoch milliseconds, `expires_in` seconds, HTTP status codes); they are
  modelled as `Int`.  `parseInt` is modelled by `jsParseInt` (leading
  whitespace, optional sign, optional `0x` prefix, longest digit run, `none`
  for NaN), and `Number.prototype.toString` on integers by `jsIntToString`.
* JavaScript truthiness of a possibly-absent string (`!s`) is modelled by
  `truthy : Option String → Bool` (absent and `""` are falsy), and `a || b`
  on such values by `jsOr`.
* Functions with effects (storage reads/writes) take the store and return the
  updated store; `Date.now()` is an explicit `now : Int` argument; network
  responses are explicit arguments.
-/

/-- The browser `localStorage`: string keys to string values, most recent
binding first. -/
abbrev Store := List (String × String)

/-- `localStorage.getItem`: the most recent binding of `k`, if any. -/
def storeGet : Store → String → Option String
  | [], _ => none
  | (a, b) :: rest, k => if a = k then some b else storeGet rest k

/-- `localStorage.removeItem`: delete every binding of `k`. -/
def storeRemove : Store → String → Store
  | [], _ => []
  | (a, b) :: rest, k =>
    if a = k then storeRemove rest k else (a, b) :: storeRemove rest k

/-- `localStorage.setItem`: bind `k` to `v` (shadowing any older binding). -/
def storeSet (s : Store) (k v : String) : Store :=
  (k, v) :: s

/-- JS truthiness of a possibly-absent string: `null`/absent and `""` are
falsy, every other string is truthy. -/
def truthy : Option String → Bool
  | none => false
  | some v => v != ""

/-- JS `a || b` where `a` is a possibly-absent string and `b` a string. -/
def jsOr : Option String → String → String
  | some v, d => if v = "" then d else v
  | none, d => d

theorem storeGet_set_same (s : Store) (k v : String) :
    storeGet (storeSet s k v) k = some v := by
  simp [storeGet, storeSet]

theorem storeGet_set_other (s : Store) (k k' v : String) (h : k' ≠ k) :
    storeGet (storeSet s k v) k' = storeGet s k' := by
  simp [storeGet, storeSet, Ne.symm h]

theorem storeGet_remove_same (s : Store) (k : String) :
    storeGet (storeRemove s k) k = none := by
  induction s with
  | nil => rfl
  | cons p rest ih =>
    obtain ⟨a, b⟩ := p
    by_cases hp : a = k <;> simp [storeRemove, storeGet, hp, ih]

theorem storeGet_remove_other (s : Store) (k k' : String) (h : k' ≠ k) :
    storeGet (storeRemove s k) k' = storeGet s k' := by
  induction s with
  | nil => rfl
  | cons p rest ih =>
    obtain ⟨a, b⟩ := p
    by_cases hp : a = k
    · subst hp
      simp [storeRemove, storeGet, Ne.symm h, ih]
    · by_cases hq : a = k' <;> simp [storeRemove, storeGet, hp, hq, h, ih]

/-! ## JavaScript integer rendering and parsing

The code stores the expiry instant with
`(Date.now() + data.expires_in * 1000).toString()` and reads it back with
`parseInt`.  We embed both directions for integer values. -/

/-- The decimal digit character of `d` (for `d < 10`). -/
def digitChar (d : Nat) : Char := Char.ofNat (48 + d)

/-- Decimal digit characters of `n`, most significant first; structural on a
fuel argument so that it computes by kernel reduction. -/
def natDigitsFuel : Nat → Nat → List Char
  | 0, _ => []
  | fuel + 1, n =>
    if n < 10 then [digitChar n]
    else natDigitsFuel fuel (n / 10) ++ [digitChar (n % 10)]

/-- Decimal digit characters of `n`, most significant first. -/
def natDigits (n : Nat) : List Char := natDigitsFuel (n + 1) n

/-- JS `Number.prototype.toString` restricted to integers. -/
def jsIntToString (n : Int) : String :=
  ⟨(if n < 0 then ['-'] else []) ++ natDigits n.natAbs⟩

/-- Value of a decimal digit character, if it is one. -/
def decDigit? (c : Char) : Option Nat :=
  if 48 ≤ c.toNat ∧ c.toNat ≤ 57 then some (c.toNat - 48) else none

/-- Value of a hexadecimal digit character, if it is one. -/
def hexDigit? (c : Char) : Option Nat :=
  if 48 ≤ c.toNat ∧ c.toNat ≤ 57 then some (c.toNat - 48)
  else if 97 ≤ c.toNat ∧ c.toNat ≤ 102 then some (c.toNat - 87)
  else if 65 ≤ c.toNat ∧ c.toNat ≤ 70 then some (c.toNat - 55)
  else none

/-- The longest run of leading digits of `cs`, as digit values. -/
def leadingDigits (f : Char → Option Nat) : List Char → List Nat
  | [] => []
  | c :: cs =>
    match f c with
    | some d => d :: leadingDigits f cs
    | none => []

/-- Value of a big-endian digit-value list in base `b`. -/
def evalBase (b : Nat) (ds : List Nat) : Nat :=
  ds.foldl (fun a d => a * b + d) 0

/-- Optional sign at the head of the character stream. -/
def parseSign : List Char → Int × List Char
  | '-' :: rest => (-1, rest)
  | '+' :: rest => (1, rest)
  | cs => (1, cs)

/-- Optional `0x`/`0X` radix marker at the head of the character stream. -/
def parseRadix : List Char → Nat × List Char
  | '0' :: 'x' :: rest => (16, rest)
  | '0' :: 'X' :: rest => (16, rest)
  | cs => (10, cs)

/-- JS `parseInt(s)` (radix argument omitted): skip leading whitespace, read
an optional sign, detect an optional `0x`/`0X` prefix, then take the longest
run of digits; `none` models NaN (no digits). -/
def jsParseInt (s : String) : Option Int :=
  let cs := s.data.dropWhile (fun c => c.isWhitespace)
  let sgn := parseSign cs
  let bas := parseRadix sgn.2
  let f := if bas.1 = 16 then hexDigit? else decDigit?
  let ds := leadingDigits f bas.2
  if ds = [] then none else some (sgn.1 * (evalBase bas.1 ds : Nat))

/-! ### Round trip: integers survive `toString` followed by `parseInt` -/

theorem natDigitsFuel_irrel : ∀ f1 f2 n, n < f1 → n < f2 →
    natDigitsFuel f1 n = natDigitsFuel f2 n := by
  intro f1
  induction f1 with
  | zero => intro f2 n h1 h2; exact absurd h1 (Nat.not_lt_zero n)
  | succ f ih =>
    intro f2 n h1 h2
    cases f2 with
    | zero => exact absurd h2 (Nat.not_lt_zero n)
    | succ g =>
      by_cases hn : n < 10
      · simp [natDigitsFuel, hn]
      · have hdiv : n / 10 < n := Nat.div_lt_self (by omega) (by omega)
        simp only [natDigitsFuel, hn, if_false]
        rw [ih g (n / 10) (by omega) (by omega)]

theorem natDigits_lt (n : Nat) (h : n < 10) : natDigits n = [digitChar n] := by
  simp [natDigits, natDigitsFuel, h]

theorem natDigits_ge (n : Nat) (h : 10 ≤ n) :
    natDigits n = natDigits (n / 10) ++ [digitChar (n % 10)] := by
  have hdiv : n / 10 < n := Nat.div_lt_self (by omega) (by omega)
  have h10 : ¬ n < 10 := by omega
  show natDigitsFuel (n + 1) n = _
  simp only [natDigitsFuel, h10, if_false]
  rw [natDigitsFuel_irrel n (n / 10 + 1) (n / 10) (by omega) (Nat.lt_succ_self _)]
  rfl

theorem natDigits_ne_nil (n : Nat) : natDigits n ≠ [] := by
  by_cases h : n < 10
  · simp [natDigits_lt n h]
  · simp [natDigits_ge n (by omega)]

theorem natDigits_mem (n : Nat) :
    ∀ c ∈ natDigits n, ∃ d, d < 10 ∧ c = digitChar d := by
  induction n using Nat.strong_induction_on with
  | _ n ih =>
    intro c hc
    by_cases h : n < 10
    · rw [natDigits_lt n h] at hc
      simp at hc
      exact ⟨n, h, hc⟩
    · rw [natDigits_ge n (by omega)] at hc
      rcases List.mem_append.mp hc with h1 | h2
      · exact ih (n / 10) (Nat.div_lt_self (by omega) (by omega)) c h1
      · simp at h2
        exact ⟨n % 10, Nat.mod_lt _ (by omega), h2⟩

theorem digitChar_toNat (d : Nat) (h : d < 10) : (digitChar d).toNat = 48 + d := by
  interval_cases d <;> decide

theorem decDigit?_digitChar (d : Nat) (h : d < 10) :
    decDigit? (digitChar d) = some d := by
  interval_cases d <;> decide

theorem digitChar_not_ws (d : Nat) (h : d < 10) :
    (digitChar d).isWhitespace = false := by
  interval_cases d <;> decide

theorem digitChar_ne_sign (d : Nat) (h : d < 10) :
    digitChar d ≠ '-' ∧ digitChar d ≠ '+' := by
  interval_cases d <;> exact ⟨by decide, by decide⟩

theorem leadingDigits_of_digits (l : List Char)
    (h : ∀ c ∈ l, ∃ d, d < 10 ∧ c = digitChar d) :
    leadingDigits decDigit? l = l.map (fun c => c.toNat - 48) := by
  induction l with
  | nil => rfl
  | cons c rest ih =>
    obtain ⟨d, hd, rfl⟩ := h c (List.mem_cons_self c rest)
    have hrest := ih (fun c hc => h c (List.mem_cons_of_mem _ hc))
    simp [leadingDigits, decDigit?_digitChar d hd, digitChar_toNat d hd, hrest]

theorem evalBase_append_single (b : Nat) (ds : List Nat) (d : Nat) :
    evalBase b (ds ++ [d]) = evalBase b ds * b + d := by
  simp [evalBase, List.foldl_append]

theorem evalBase_natDigits (n : Nat) :
    evalBase 10 ((natDigits n).map (fun c => c.toNat - 48)) = n := by
  induction n using Nat.strong_induction_on with
  | _ n ih =>
    by_cases h : n < 10
    · rw [natDigits_lt n h]
      simp [evalBase, digitChar_toNat n h]
    · rw [natDigits_ge n (by omega), List.map_append, List.map_cons, List.map_nil,
        evalBase_append_single, ih (n / 10) (Nat.div_lt_self (by omega) (by omega)),
        digitChar_toNat (n % 10) (Nat.mod_lt _ (by omega))]
      omega

theorem parseRadix_digits (l : List Char)
    (h : ∀ c ∈ l, ∃ d, d < 10 ∧ c = digitChar d) :
    parseRadix l = (10, l) := by
  unfold parseRadix
  split
  · exfalso
    obtain ⟨d, hd, hx⟩ := h 'x' (by simp)
    have h1 : ('x').toNat = 48 + d := by rw [hx]; exact digitChar_toNat d hd
    simp at h1
    omega
  · exfalso
    obtain ⟨d, hd, hx⟩ := h 'X' (by simp)
    have h1 : ('X').toNat = 48 + d := by rw [hx]; exact digitChar_toNat d hd
    simp at h1
    omega
  · rfl

theorem parseSign_other (l : List Char)
    (h : ∀ c, l.head? = some c → c ≠ '-' ∧ c ≠ '+') :
    parseSign l = (1, l) := by
  unfold parseSign
  split
  · exact absurd rfl (h '-' rfl).1
  · exact absurd rfl (h '+' rfl).2
  · rfl

theorem dropWhile_head_false {p : Char → Bool} (c : Char) (l : List Char)
    (h : p c = false) : (c :: l).dropWhile p = c :: l := by
  simp [List.dropWhile, h]

theorem jsIntToString_data (n : Int) :
    (jsIntToString n).data = (if n < 0 then ['-'] else []) ++ natDigits n.natAbs :=
  rfl

theorem jsParseInt_jsIntToString (n : Int) :
    jsParseInt (jsIntToString n) = some n := by
  have hmem := natDigits_mem n.natAbs
  obtain ⟨c, rest, hc⟩ : ∃ c rest, natDigits n.natAbs = c :: rest := by
    cases hnd : natDigits n.natAbs with
    | nil => exact absurd hnd (natDigits_ne_nil _)
    | cons c rest => exact ⟨c, rest, rfl⟩
  obtain ⟨d, hd, hcd⟩ := hmem c (by rw [hc]; simp)
  have hmap : leadingDigits decDigit? (natDigits n.natAbs) =
      (natDigits n.natAbs).map (fun c => c.toNat - 48) :=
    leadingDigits_of_digits _ hmem
  have hne : (natDigits n.natAbs).map (fun c => c.toNat - 48) ≠ [] := by
    rw [hc]; simp
  have hradix := parseRadix_digits (natDigits n.natAbs) hmem
  by_cases hn : n < 0
  · have hval : ((-1 : Int)) * (n.natAbs : Int) = n := by omega
    simp only [jsParseInt, jsIntToString_data, if_pos hn, List.singleton_append,
      dropWhile_head_false '-' (natDigits n.natAbs)
        (by decide : ('-').isWhitespace = false),
      show parseSign ('-' :: natDigits n.natAbs) = ((-1 : Int), natDigits n.natAbs)
        from rfl,
      hradix, if_neg (show ¬ (10 : Nat) = 16 by decide), hmap, if_neg hne,
      evalBase_natDigits, hval]
  · have hval : ((1 : Int)) * (n.natAbs : Int) = n := by omega
    have hsign : parseSign (natDigits n.natAbs) = (1, natDigits n.natAbs) := by
      refine parseSign_other (natDigits n.natAbs) ?_
      intro c' hc'
      rw [hc] at hc'
      simp at hc'
      rw [hc'] at hcd
      rw [hcd]
      exact digitChar_ne_sign d hd
    have hdrop : (natDigits n.natAbs).dropWhile (fun c => c.isWhitespace) =
        natDigits n.natAbs := by
      rw [hc]
      exact dropWhile_head_false c rest (by rw [hcd]; exact digitChar_not_ws d hd)
    simp only [jsParseInt, jsIntToString_data, if_neg hn, List.nil_append,
      hdrop, hsign, hradix, if_neg (show ¬ (10 : Nat) = 16 by decide), hmap,
      if_neg hne, evalBase_natDigits, hval]

/-! ## The embedding of `src/services/spotifyAuth.ts` -/

/-- JS `now > v` where `v` may be NaN (any comparison with NaN is false). -/
def jsGtNum (now : Int) : Option Int → Bool
  | some v => decide (v < now)
  | none => false

/-- The `possible` alphabet of `generateRandomString` (line 9 of
`spotifyAuth.ts`). -/
def possibleChars : String :=
  "ABCDEFGHIJKLMNOPQRSTUVWXYZabcdefghijklmnopqrstuvwxyz0123456789"

/-- `possible[x % possible.length]` for one random byte `x`.  The index is
always in range, so the `getD` default is never used. -/
def charOfByte (x : Nat) : Char :=
  possibleChars.data.getD (x % possibleChars.length) ' '

/-- `generateRandomString` (lines 8-12): one character per byte produced by
`crypto.getRandomValues`, folded together by string concatenation. -/
def generateRandomString (values : List Nat) : String :=
  ⟨values.foldl (fun acc x => acc ++ [charOfByte x]) []⟩

theorem generateRandomString_data (values : List Nat) :
    (generateRandomString values).data = values.map charOfByte := by
  have key : ∀ (vs : List Nat) (init : List Char),
      vs.foldl (fun acc x => acc ++ [charOfByte x]) init = init ++ vs.map charOfByte := by
    intro vs
    induction vs with
    | nil => intro init; simp
    | cons v rest ih => intro init; simp [List.foldl_cons, ih]
  show values.foldl (fun acc x => acc ++ [charOfByte x]) [] = _
  simp [key]

namespace SpotifyAuth

/-- The statically requested scope list (lines 24-33). -/
def SCOPES : List String :=
  ["user-read-private", "user-read-email", "user-read-recently-played",
   "user-top-read", "user-read-currently-playing", "streaming",
   "user-read-playback-state", "user-modify-playback-state"]

/-- The storage effect of `initiateAuth` (line 40): persist the freshly
generated code verifier.  Challenge derivation and the browser redirect have
no further effect on the store. -/
def initiateAuthStore (codeVerifier : String) (s : Store) : Store :=
  storeSet s "spotify_code_verifier" codeVerifier

/-- The JSON body of the token-endpoint response together with `response.ok`. -/
structure TokenResponse where
  ok : Bool
  error_description : Option String
  access_token : String
  refresh_token : String
  expires_in : Int
  scope : Option String

/-- `logout` (lines 110-115): remove the four token-group keys. -/
def logout (s : Store) : Store :=
  storeRemove (storeRemove (storeRemove (storeRemove s
    "spotify_access_token") "spotify_refresh_token") "spotify_expires_at")
    "spotify_scopes"

/-- `handleCallback` (lines 54-90).  The token-endpoint exchange is an
external effect whose result is the explicit `resp` argument; `now` is
`Date.now()` at the time the response is stored. -/
def handleCallback (now : Int) (resp : TokenResponse) (s : Store) :
    Except String String × Store :=
  let codeVerifier := storeGet s "spotify_code_verifier"
  if !truthy codeVerifier then
    (Except.error "No code verifier found", s)
  else if !resp.ok then
    (Except.error (jsOr resp.error_description "Token exchange failed"), s)
  else
    let s1 := storeSet s "spotify_access_token" resp.access_token
    let s2 := storeSet s1 "spotify_refresh_token" resp.refresh_token
    let s3 := storeSet s2 "spotify_expires_at"
      (jsIntToString (now + resp.expires_in * 1000))
    let s4 := storeSet s3 "spotify_scopes"
      (jsOr resp.scope (String.intercalate " " SCOPES))
    (Except.ok resp.access_token, storeRemove s4 "spotify_code_verifier")

/-- `getAccessToken` (lines 92-104). -/
def getAccessToken (now : Int) (s : Store) : Option String × Store :=
  let token := storeGet s "spotify_access_token"
  let expiresAt := storeGet s "spotify_expires_at"
  if !truthy token || !truthy expiresAt then (none, s)
  else if jsGtNum now (jsParseInt (expiresAt.getD "")) then (none, logout s)
  else (token, s)

/-- `isAuthenticated` (lines 106-108). -/
def isAuthenticated (now : Int) (s : Store) : Bool × Store :=
  let r := getAccessToken now s
  (r.1 != none, r.2)

/-- JS `str.split(sep)` for a one-character separator: split at every
occurrence, keeping empty fragments (same semantics as `String.splitOn` for a
one-character separator, but structurally recursive so that it computes by
kernel reduction). -/
def splitChar (sep : Char) : List Char → List String
  | [] => [""]
  | c :: rest =>
    if c = sep then "" :: splitChar sep rest
    else
      match splitChar sep rest with
      | [] => [⟨[c]⟩]
      | h :: t => (⟨c :: h.data⟩) :: t

/-- `getCurrentScopes` (lines 117-120): `scopes ? scopes.split(' ') : []`. -/
def getCurrentScopes (s : Store) : List String :=
  match storeGet s "spotify_scopes" with
  | some scopes => if scopes = "" then [] else splitChar ' ' scopes.data
  | none => []

/-- `hasRequiredScopes` (lines 122-125). -/
def hasRequiredScopes (requiredScopes : List String) (s : Store) : Bool :=
  requiredScopes.all (fun scope => (getCurrentScopes s).contains scope)

end SpotifyAuth

/-! ## The embedding of `SpotifyApi.makeRequest` (`src/services/spotifyApi.ts`) -/

/-- Does `pat` lead the list `l`? -/
def leadsWith : List Char → List Char → Bool
  | [], _ => true
  | _ :: _, [] => false
  | a :: as, b :: bs => a == b && leadsWith as bs

/-- Does `pat` occur contiguously anywhere in `l`? -/
def occursIn (pat : List Char) : List Char → Bool
  | [] => leadsWith pat []
  | c :: rest => leadsWith pat (c :: rest) || occursIn pat rest

/-- JS `hay.includes(pat)`. -/
def strIncludes (hay pat : String) : Bool := occursIn pat.data hay.data

/-- JS template interpolation of a possibly-absent number. -/
def statusRender : Option Int → String
  | some v => jsIntToString v
  | none => "undefined"

namespace SpotifyApi

/-- Outcome of the `axios.get` call inside `makeRequest`: a successful
response body, an axios error (optional HTTP status, optional
`errorData.error.message`, and `error.message`), or a rethrown non-axios
exception. -/
inductive FetchOutcome (α : Type) where
  | success (data : α)
  | axiosError (status : Option Int) (errorMessage : Option String)
      (message : String)
  | jsError (message : String)

/-- `makeRequest` (lines 62-107).  The network call is an external effect
whose result is the explicit `outcome` argument.  The `console.error` log has
no session effect and is omitted. -/
def makeRequest {α : Type} (now : Int) (outcome : FetchOutcome α) (s : Store) :
    Except String α × Store :=
  let r := SpotifyAuth.getAccessToken now s
  match r.1 with
  | none => (Except.error "No access token available", r.2)
  | some _ =>
    match outcome with
    | .success d => (Except.ok d, r.2)
    | .jsError m => (Except.error m, r.2)
    | .axiosError status errMsg axMsg =>
      if status == some 401 then
        (Except.error "Authentication expired. Please log in again.",
          SpotifyAuth.logout r.2)
      else if status == some 403 then
        if (match errMsg with
            | some m => strIncludes m "Development mode"
            | none => false) then
          (Except.error ("Spotify app is in Development Mode. You need to " ++
            "add your account to the app\x27s user list in the Spotify " ++
            "Developer Dashboard, or request a quota extension."), r.2)
        else
          (Except.error ("Access forbidden (403): " ++
            jsOr errMsg ("Your Spotify app may be in Development Mode. " ++
              "Check your app settings in the Spotify Developer Dashboard.")),
            r.2)
      else if status == some 429 then
        (Except.error "Rate limit exceeded. Please wait a moment and try again.",
          r.2)
      else
        (Except.error ("Spotify API error (" ++ statusRender status ++ "): " ++
          jsOr errMsg axMsg), r.2)

end SpotifyApi

/-! ## Helper lemmas about `logout` and session reads -/

theorem storeGet_logout_access (s : Store) :
    storeGet (SpotifyAuth.logout s) "spotify_access_token" = none := by
  unfold SpotifyAuth.logout
  rw [storeGet_remove_other _ _ _ (by decide), storeGet_remove_other _ _ _ (by decide),
    storeGet_remove_other _ _ _ (by decide), storeGet_remove_same]

theorem storeGet_logout_refresh (s : Store) :
    storeGet (SpotifyAuth.logout s) "spotify_refresh_token" = none := by
  unfold SpotifyAuth.logout
  rw [storeGet_remove_other _ _ _ (by decide), storeGet_remove_other _ _ _ (by decide),
    storeGet_remove_same]

theorem storeGet_logout_expires (s : Store) :
    storeGet (SpotifyAuth.logout s) "spotify_expires_at" = none := by
  unfold SpotifyAuth.logout
  rw [storeGet_remove_other _ _ _ (by decide), storeGet_remove_same]

theorem storeGet_logout_scopes (s : Store) :
    storeGet (SpotifyAuth.logout s) "spotify_scopes" = none := by
  unfold SpotifyAuth.logout
  rw [storeGet_remove_same]

theorem storeGet_logout_other (s : Store) (k : String)
    (h1 : k ≠ "spotify_access_token") (h2 : k ≠ "spotify_refresh_token")
    (h3 : k ≠ "spotify_expires_at") (h4 : k ≠ "spotify_scopes") :
    storeGet (SpotifyAuth.logout s) k = storeGet s k := by
  unfold SpotifyAuth.logout
  rw [storeGet_remove_other _ _ _ h4, storeGet_remove_other _ _ _ h3,
    storeGet_remove_other _ _ _ h2, storeGet_remove_other _ _ _ h1]

theorem getAccessToken_of_logout (now : Int) (s : Store) :
    SpotifyAuth.getAccessToken now (SpotifyAuth.logout s) =
      (none, SpotifyAuth.logout s) := by
  unfold SpotifyAuth.getAccessToken
  simp [storeGet_logout_access, truthy]

/-! ## C10: `logout` removes exactly the token group -/

/-- C10: `logout()` empties exactly the four token-group entries (access
token, refresh token, expiry, granted scopes) and leaves every other stored
entry unchanged; in particular a pending code verifier survives `logout()`. -/
theorem logout_exact_frame (s : Store) (k : String)
    (hk : k ∉ ["spotify_access_token", "spotify_refresh_token",
      "spotify_expires_at", "spotify_scopes"]) :
    storeGet (SpotifyAuth.logout s) "spotify_access_token" = none ∧
    storeGet (SpotifyAuth.logout s) "spotify_refresh_token" = none ∧
    storeGet (SpotifyAuth.logout s) "spotify_expires_at" = none ∧
    storeGet (SpotifyAuth.logout s) "spotify_scopes" = none ∧
    storeGet (SpotifyAuth.logout s) k = storeGet s k ∧
    storeGet (SpotifyAuth.logout s) "spotify_code_verifier" =
      storeGet s "spotify_code_verifier" := by
  simp only [List.mem_cons, List.mem_singleton, not_or] at hk
  obtain ⟨h1, h2, h3, h4⟩ := hk
  exact ⟨storeGet_logout_access s, storeGet_logout_refresh s,
    storeGet_logout_expires s, storeGet_logout_scopes s,
    storeGet_logout_other s k h1 h2 h3 h4.1,
    storeGet_logout_other s _ (by decide) (by decide) (by decide) (by decide)⟩

/-- Witness for C10 at a concrete store: the pending verifier survives while
the token entry is cleared. -/
theorem logout_exact_frame_witness :
    storeGet (SpotifyAuth.logout
      [("spotify_code_verifier", "v"), ("spotify_access_token", "t")])
      "spotify_code_verifier" = some "v" ∧
    storeGet (SpotifyAuth.logout
      [("spotify_code_verifier", "v"), ("spotify_access_token", "t")])
      "spotify_access_token" = none := by
  have h := logout_exact_frame
    [("spotify_code_verifier", "v"), ("spotify_access_token", "t")]
    "spotify_code_verifier" (by decide)
  exact ⟨h.2.2.2.2.2.trans (by decide), h.1⟩

/-! ## C9: a non-numeric expiry is treated as never expired -/

/-- C9: if the expiry entry is present (and truthy) but `parseInt` yields NaN,
`getAccessToken` returns the stored token and leaves the session untouched:
`Date.now() > NaN` is false, so the corrupted expiry never reads as elapsed. -/
theorem getAccessToken_nan_expiry (now : Int) (s : Store) (e : String)
    (htok : truthy (storeGet s "spotify_access_token") = true)
    (hexp : storeGet s "spotify_expires_at" = some e)
    (hne : e ≠ "")
    (hnan : jsParseInt e = none) :
    SpotifyAuth.getAccessToken now s = (storeGet s "spotify_access_token", s) := by
  have h1 : truthy (storeGet s "spotify_expires_at") = true := by
    rw [hexp]
    simp [truthy, hne]
  unfold SpotifyAuth.getAccessToken
  simp only [htok, h1, hexp, Option.getD_some, hnan, Bool.not_true,
    Bool.or_self, Bool.false_or, jsGtNum, if_false]
  have h2 : truthy (some e) = true := by simp [truthy, hne]
  simp [h2]

/-- Witness for C9: a session whose expiry reads `"abc"` keeps serving its
token. -/
theorem getAccessToken_nan_expiry_witness :
    SpotifyAuth.getAccessToken 5
      [("spotify_access_token", "t"), ("spotify_expires_at", "abc")] =
      (some "t", [("spotify_access_token", "t"), ("spotify_expires_at", "abc")]) := by
  have h := getAccessToken_nan_expiry 5
    [("spotify_access_token", "t"), ("spotify_expires_at", "abc")] "abc"
    (by decide) (by decide) (by decide) (by decide)
  exact h.trans (by decide)

theorem jsIntToString_ne_empty (n : Int) : jsIntToString n ≠ "" := by
  intro h
  have hd : (if n < 0 then ['-'] else []) ++ natDigits n.natAbs = ([] : List Char) :=
    congrArg String.data h
  exact natDigits_ne_nil _ (List.append_eq_nil.mp hd).2

/-! ## C1 (amended): full characterization of `getAccessToken` -/

/-- C1 (amended): `getAccessToken` returns the stored token iff the token and
expiry entries are both present and truthy and the current time does not
STRICTLY exceed the parsed expiry (a non-numeric expiry never counts as
exceeded); it clears the whole session exactly when both entries are truthy
and `now > expiresAt`; when either entry is absent it returns absent WITHOUT
clearing anything.  With `expiresAt = now - 1` it returns absent, clears the
session, and `isAuthenticated()` is subsequently false. -/
theorem getAccessToken_spec :
    (∀ (now : Int) (s : Store) (e : String),
      truthy (storeGet s "spotify_access_token") = true →
      storeGet s "spotify_expires_at" = some e → e ≠ "" →
      jsGtNum now (jsParseInt e) = true →
      SpotifyAuth.getAccessToken now s = (none, SpotifyAuth.logout s)) ∧
    (∀ (now : Int) (s : Store) (e : String),
      truthy (storeGet s "spotify_access_token") = true →
      storeGet s "spotify_expires_at" = some e → e ≠ "" →
      jsGtNum now (jsParseInt e) = false →
      SpotifyAuth.getAccessToken now s = (storeGet s "spotify_access_token", s)) ∧
    (∀ (now : Int) (s : Store),
      truthy (storeGet s "spotify_access_token") = false ∨
      truthy (storeGet s "spotify_expires_at") = false →
      SpotifyAuth.getAccessToken now s = (none, s)) ∧
    (∀ (now : Int) (t : String), t ≠ "" →
      SpotifyAuth.getAccessToken now
        [("spotify_access_token", t),
         ("spotify_expires_at", jsIntToString (now - 1))] = (none, []) ∧
      SpotifyAuth.isAuthenticated now ([] : Store) = (false, [])) := by
  have expired : ∀ (now : Int) (s : Store) (e : String),
      truthy (storeGet s "spotify_access_token") = true →
      storeGet s "spotify_expires_at" = some e → e ≠ "" →
      jsGtNum now (jsParseInt e) = true →
      SpotifyAuth.getAccessToken now s = (none, SpotifyAuth.logout s) := by
    intro now s e htok hexp hne hgt
    have h1 : truthy (storeGet s "spotify_expires_at") = true := by
      rw [hexp]; simp [truthy, hne]
    unfold SpotifyAuth.getAccessToken
    simp only [htok, h1, hexp, Option.getD_some, hgt, Bool.not_true,
      Bool.or_self, Bool.false_or, if_false]
    have h2 : truthy (some e) = true := by simp [truthy, hne]
    simp [h2]
  refine ⟨expired, ?_, ?_, ?_⟩
  · intro now s e htok hexp hne hgt
    have h1 : truthy (storeGet s "spotify_expires_at") = true := by
      rw [hexp]; simp [truthy, hne]
    unfold SpotifyAuth.getAccessToken
    simp only [htok, h1, hexp, Option.getD_some, hgt, Bool.not_true,
      Bool.or_self, Bool.false_or, if_false]
    have h2 : truthy (some e) = true := by simp [truthy, hne]
    simp [h2]
  · intro now s h
    unfold SpotifyAuth.getAccessToken
    rcases h with h | h <;> simp [h]
  · intro now t ht
    have k1 : ("spotify_access_token" : String) ≠ "spotify_expires_at" := by decide
    have hexp : storeGet
        [("spotify_access_token", t), ("spotify_expires_at", jsIntToString (now - 1))]
        "spotify_expires_at" = some (jsIntToString (now - 1)) := by
      simp [storeGet, k1]
    have htok : truthy (storeGet
        [("spotify_access_token", t), ("spotify_expires_at", jsIntToString (now - 1))]
        "spotify_access_token") = true := by
      simp [storeGet, truthy, ht]
    have hgt : jsGtNum now (jsParseInt (jsIntToString (now - 1))) = true := by
      rw [jsParseInt_jsIntToString]
      simp [jsGtNum]
    have hlogout : SpotifyAuth.logout
        [("spotify_access_token", t), ("spotify_expires_at", jsIntToString (now - 1))] =
        ([] : Store) := by
      simp [SpotifyAuth.logout, storeRemove]
    refine ⟨?_, ?_⟩
    · rw [expired now _ (jsIntToString (now - 1)) htok hexp (jsIntToString_ne_empty _) hgt,
        hlogout]
    · simp [SpotifyAuth.isAuthenticated, SpotifyAuth.getAccessToken, storeGet, truthy]

/-- Witness for C1 at concrete inputs: expired session cleared, boundary
`now = expiresAt` still served, missing token entry left untouched, and the
`expiresAt = now - 1` boundary. -/
theorem getAccessToken_spec_witness :
    SpotifyAuth.getAccessToken 1000
      [("spotify_access_token", "t"), ("spotify_expires_at", "999")] = (none, []) ∧
    SpotifyAuth.getAccessToken 1000
      [("spotify_access_token", "t"), ("spotify_expires_at", "2000")] =
      (some "t", [("spotify_access_token", "t"), ("spotify_expires_at", "2000")]) ∧
    SpotifyAuth.getAccessToken 1000 [("spotify_refresh_token", "r")] =
      (none, [("spotify_refresh_token", "r")]) ∧
    SpotifyAuth.getAccessToken 1000
      [("spotify_access_token", "t"),
       ("spotify_expires_at", jsIntToString (1000 - 1))] = (none, []) := by
  refine ⟨?_, ?_, ?_, ?_⟩
  · exact (getAccessToken_spec.1 1000 _ "999"
      (by decide) (by decide) (by decide) (by decide)).trans (by decide)
  · exact (getAccessToken_spec.2.1 1000 _ "2000"
      (by decide) (by decide) (by decide) (by decide)).trans (by decide)
  · exact getAccessToken_spec.2.2.1 1000 _ (Or.inl (by decide))
  · exact (getAccessToken_spec.2.2.2 1000 "t" (by decide)).1

/-- C1 counterexample: at `now` exactly equal to the stored `expiresAt`
(`now < expiresAt` is false), `getAccessToken` still returns the token and
clears nothing, contradicting the claim that the token is returned only when
`now` is strictly less than `expiresAt` and that otherwise the whole session
is cleared. -/
theorem getAccessToken_exact_expiry_cx :
    SpotifyAuth.getAccessToken 1000
      [("spotify_access_token", "t"), ("spotify_expires_at", "1000")] =
      (some "t", [("spotify_access_token", "t"), ("spotify_expires_at", "1000")]) := by
  decide

/-! ## C4: missing verifier fails closed and atomically -/

/-- C4: with no (truthy) stored code verifier, `handleCallback` fails with
`'No code verifier found'` for every possible exchange response (the result
does not depend on `resp`, so the failure precedes any observable exchange
effect) and returns the store unchanged, hence `isAuthenticated` afterwards
equals `isAuthenticated` before (in particular it stays false). -/
theorem handleCallback_missing_verifier (now : Int)
    (resp : SpotifyAuth.TokenResponse) (s : Store)
    (h : truthy (storeGet s "spotify_code_verifier") = false) :
    SpotifyAuth.handleCallback now resp s =
      (Except.error "No code verifier found", s) ∧
    (SpotifyAuth.isAuthenticated now
      (SpotifyAuth.handleCallback now resp s).2).1 =
      (SpotifyAuth.isAuthenticated now s).1 := by
  have h1 : SpotifyAuth.handleCallback now resp s =
      (Except.error "No code verifier found", s) := by
    unfold SpotifyAuth.handleCallback
    simp [h]
  exact ⟨h1, by rw [h1]⟩

/-- Witness for C4: empty store, an otherwise perfectly valid response. -/
theorem handleCallback_missing_verifier_witness :
    SpotifyAuth.handleCallback 0
      ⟨true, none, "tok", "ref", 3600, none⟩ ([] : Store) =
      (Except.error "No code verifier found", ([] : Store)) :=
  (handleCallback_missing_verifier 0 ⟨true, none, "tok", "ref", 3600, none⟩ []
    (by decide)).1

/-! ## C2: when the verifier is cleared -/

/-- C2 (amended): with a truthy verifier stored, a successful
`handleCallback` removes the verifier key before returning; but on a failed
token exchange (`response.ok` false) the whole store — the verifier
included — is left exactly as it was, so the stored verifier survives the
failed completion attempt. -/
theorem handleCallback_verifier_clearing (now : Int)
    (resp : SpotifyAuth.TokenResponse) (s : Store)
    (hv : truthy (storeGet s "spotify_code_verifier") = true) :
    (resp.ok = true →
      storeGet (SpotifyAuth.handleCallback now resp s).2
        "spotify_code_verifier" = none) ∧
    (resp.ok = false → (SpotifyAuth.handleCallback now resp s).2 = s) := by
  constructor
  · intro hok
    unfold SpotifyAuth.handleCallback
    simp [hv, hok, storeGet_remove_same]
  · intro hok
    unfold SpotifyAuth.handleCallback
    simp [hv, hok]

/-- Witness for C2: a successful exchange clears the verifier; a failed one
leaves the store unchanged. -/
theorem handleCallback_verifier_clearing_witness :
    storeGet (SpotifyAuth.handleCallback 1000
      ⟨true, none, "tok", "ref", 3600, none⟩
      [("spotify_code_verifier", "v")]).2 "spotify_code_verifier" = none ∧
    (SpotifyAuth.handleCallback 0 ⟨false, none, "", "", 0, none⟩
      [("spotify_code_verifier", "v")]).2 = [("spotify_code_verifier", "v")] :=
  ⟨(handleCallback_verifier_clearing 1000 _ _ (by decide)).1 rfl,
   (handleCallback_verifier_clearing 0 _ _ (by decide)).2 rfl⟩

/-- C2 counterexample: a `handleCallback` call that found the stored verifier
`"v"` but whose exchange failed terminates with the provider's error and the
verifier is still present afterwards — the claim that the verifier is cleared
on success or failure is false on the failure path. -/
theorem handleCallback_failed_exchange_cx :
    SpotifyAuth.handleCallback 0
      ⟨false, some "bad", "", "", 0, none⟩ [("spotify_code_verifier", "v")] =
      (Except.error "bad", [("spotify_code_verifier", "v")]) ∧
    storeGet [("spotify_code_verifier", "v")] "spotify_code_verifier" =
      some "v" := by
  exact ⟨rfl, rfl⟩

/-! ## C3: the successful round trip -/

/-- C3 (amended): for every exchange response with `ok`, a NON-EMPTY issued
access token and `expires_in > 0`, `completeHandshake` after `initiate()`
persists the full token group (expiry = now + expires_in seconds, provider
scopes with fallback to the requested `SCOPES`), clears the verifier, returns
the issued token, and subsequently `isAuthenticated()` is true with
`getAccessToken()` returning that same token.  (The non-emptiness hypothesis
is forced by the counterexample below: the code persists and returns an empty
issued token but `getAccessToken` then treats it as absent.) -/
theorem handleCallback_success_roundtrip (now : Int)
    (resp : SpotifyAuth.TokenResponse) (s : Store) (v : String)
    (hok : resp.ok = true) (htok : resp.access_token ≠ "")
    (he : 0 < resp.expires_in) (hv : v ≠ "") :
    (SpotifyAuth.handleCallback now resp (SpotifyAuth.initiateAuthStore v s)).1 =
      Except.ok resp.access_token ∧
    storeGet (SpotifyAuth.handleCallback now resp
      (SpotifyAuth.initiateAuthStore v s)).2 "spotify_access_token" =
      some resp.access_token ∧
    storeGet (SpotifyAuth.handleCallback now resp
      (SpotifyAuth.initiateAuthStore v s)).2 "spotify_refresh_token" =
      some resp.refresh_token ∧
    storeGet (SpotifyAuth.handleCallback now resp
      (SpotifyAuth.initiateAuthStore v s)).2 "spotify_expires_at" =
      some (jsIntToString (now + resp.expires_in * 1000)) ∧
    storeGet (SpotifyAuth.handleCallback now resp
      (SpotifyAuth.initiateAuthStore v s)).2 "spotify_scopes" =
      some (jsOr resp.scope (String.intercalate " " SpotifyAuth.SCOPES)) ∧
    storeGet (SpotifyAuth.handleCallback now resp
      (SpotifyAuth.initiateAuthStore v s)).2 "spotify_code_verifier" = none ∧
    SpotifyAuth.getAccessToken now (SpotifyAuth.handleCallback now resp
      (SpotifyAuth.initiateAuthStore v s)).2 =
      (some resp.access_token, (SpotifyAuth.handleCallback now resp
        (SpotifyAuth.initiateAuthStore v s)).2) ∧
    (SpotifyAuth.isAuthenticated now (SpotifyAuth.handleCallback now resp
      (SpotifyAuth.initiateAuthStore v s)).2).1 = true := by
  have hv0 : truthy (storeGet (SpotifyAuth.initiateAuthStore v s)
      "spotify_code_verifier") = true := by
    simp [SpotifyAuth.initiateAuthStore, storeGet_set_same, truthy, hv]
  have hH : SpotifyAuth.handleCallback now resp (SpotifyAuth.initiateAuthStore v s) =
      (Except.ok resp.access_token, storeRemove (storeSet (storeSet (storeSet
        (storeSet (SpotifyAuth.initiateAuthStore v s)
          "spotify_access_token" resp.access_token)
          "spotify_refresh_token" resp.refresh_token)
          "spotify_expires_at" (jsIntToString (now + resp.expires_in * 1000)))
          "spotify_scopes" (jsOr resp.scope (String.intercalate " " SpotifyAuth.SCOPES)))
        "spotify_code_verifier") := by
    unfold SpotifyAuth.handleCallback
    simp [hv0, hok]
  have hacc : storeGet (SpotifyAuth.handleCallback now resp
      (SpotifyAuth.initiateAuthStore v s)).2 "spotify_access_token" =
      some resp.access_token := by
    simp only [hH]
    rw [storeGet_remove_other _ _ _ (by decide),
      storeGet_set_other _ _ _ _ (by decide), storeGet_set_other _ _ _ _ (by decide),
      storeGet_set_other _ _ _ _ (by decide), storeGet_set_same]
  have href : storeGet (SpotifyAuth.handleCallback now resp
      (SpotifyAuth.initiateAuthStore v s)).2 "spotify_refresh_token" =
      some resp.refresh_token := by
    simp only [hH]
    rw [storeGet_remove_other _ _ _ (by decide),
      storeGet_set_other _ _ _ _ (by decide), storeGet_set_other _ _ _ _ (by decide),
      storeGet_set_same]
  have hexp2 : storeGet (SpotifyAuth.handleCallback now resp
      (SpotifyAuth.initiateAuthStore v s)).2 "spotify_expires_at" =
      some (jsIntToString (now + resp.expires_in * 1000)) := by
    simp only [hH]
    rw [storeGet_remove_other _ _ _ (by decide),
      storeGet_set_other _ _ _ _ (by decide), storeGet_set_same]
  have hsco : storeGet (SpotifyAuth.handleCallback now resp
      (SpotifyAuth.initiateAuthStore v s)).2 "spotify_scopes" =
      some (jsOr resp.scope (String.intercalate " " SpotifyAuth.SCOPES)) := by
    simp only [hH]
    rw [storeGet_remove_other _ _ _ (by decide), storeGet_set_same]
  have hver : storeGet (SpotifyAuth.handleCallback now resp
      (SpotifyAuth.initiateAuthStore v s)).2 "spotify_code_verifier" = none := by
    simp only [hH]
    rw [storeGet_remove_same]
  have hlt : jsGtNum now (jsParseInt (jsIntToString
      (now + resp.expires_in * 1000))) = false := by
    rw [jsParseInt_jsIntToString]
    simp only [jsGtNum]
    exact decide_eq_false (by omega)
  have htr1 : truthy (some resp.access_token) = true := by simp [truthy, htok]
  have htr2 : truthy (some (jsIntToString (now + resp.expires_in * 1000))) = true := by
    simp [truthy, jsIntToString_ne_empty]
  have hget : SpotifyAuth.getAccessToken now (SpotifyAuth.handleCallback now resp
      (SpotifyAuth.initiateAuthStore v s)).2 =
      (some resp.access_token, (SpotifyAuth.handleCallback now resp
        (SpotifyAuth.initiateAuthStore v s)).2) := by
    unfold SpotifyAuth.getAccessToken
    rw [hacc, hexp2]
    simp [htr1, htr2, hlt]
  have hauth : (SpotifyAuth.isAuthenticated now (SpotifyAuth.handleCallback now resp
      (SpotifyAuth.initiateAuthStore v s)).2).1 = true := by
    unfold SpotifyAuth.isAuthenticated
    simp [hget]
  exact ⟨by simp [hH], hacc, href, hexp2, hsco, hver, hget, hauth⟩

/-- Witness for C3 at a concrete handshake. -/
theorem handleCallback_success_roundtrip_witness :
    (SpotifyAuth.handleCallback 0 ⟨true, none, "tok", "ref", 3600, none⟩
      (SpotifyAuth.initiateAuthStore "v" [])).1 = Except.ok "tok" ∧
    (SpotifyAuth.isAuthenticated 0
      (SpotifyAuth.handleCallback 0 ⟨true, none, "tok", "ref", 3600, none⟩
        (SpotifyAuth.initiateAuthStore "v" [])).2).1 = true := by
  have h := handleCallback_success_roundtrip 0
    ⟨true, none, "tok", "ref", 3600, none⟩ [] "v"
    rfl (by decide) (by decide) (by decide)
  exact ⟨h.1, h.2.2.2.2.2.2.2⟩

/-- C3 counterexample: the provider may declare `expires_in = 3600 > 0` yet
issue the empty string as access token; `handleCallback` then succeeds and
returns that issued token, but `isAuthenticated()` is subsequently false —
refuting the claimed round trip for every exchange response with positive
lifetime. -/
theorem handleCallback_empty_token_cx :
    (SpotifyAuth.handleCallback 0 ⟨true, none, "", "r", 3600, none⟩
      (SpotifyAuth.initiateAuthStore "v" [])).1 = Except.ok "" ∧
    (SpotifyAuth.isAuthenticated 0
      (SpotifyAuth.handleCallback 0 ⟨true, none, "", "r", 3600, none⟩
        (SpotifyAuth.initiateAuthStore "v" [])).2).1 = false := by
  exact ⟨rfl, rfl⟩

/-! ## C6: scope checking is exact membership -/

/-- C6: `hasRequiredScopes` is true iff every required scope is literally a
member of the currently granted scope list (no partial or fuzzy matching); an
absent granted-scope entry reads as the empty set; and on granted scopes
`{A, B}`, `{A}` passes while `{A, C}` fails. -/
theorem hasRequiredScopes_spec :
    (∀ (required : List String) (s : Store),
      SpotifyAuth.hasRequiredScopes required s = true ↔
        ∀ r ∈ required, r ∈ SpotifyAuth.getCurrentScopes s) ∧
    (∀ s : Store, storeGet s "spotify_scopes" = none →
      SpotifyAuth.getCurrentScopes s = []) ∧
    SpotifyAuth.hasRequiredScopes ["A"] [("spotify_scopes", "A B")] = true ∧
    SpotifyAuth.hasRequiredScopes ["A", "C"] [("spotify_scopes", "A B")] = false := by
  refine ⟨?_, ?_, by decide, by decide⟩
  · intro required s
    simp [SpotifyAuth.hasRequiredScopes, List.all_eq_true]
  · intro s h
    simp [SpotifyAuth.getCurrentScopes, h]

/-- Witness for C6: instances of the quantified conjuncts at concrete
stores. -/
theorem hasRequiredScopes_spec_witness :
    (∀ r ∈ ["A"], r ∈ SpotifyAuth.getCurrentScopes [("spotify_scopes", "A B")]) ∧
    SpotifyAuth.getCurrentScopes [("other", "x")] = [] :=
  ⟨(hasRequiredScopes_spec.1 ["A"] [("spotify_scopes", "A B")]).mp (by decide),
   hasRequiredScopes_spec.2.1 [("other", "x")] (by decide)⟩

/-! ## C5: downstream status handling of `makeRequest` -/

theorem string_ne_of_second (a b : String) (h : a.data[1]? ≠ b.data[1]?) :
    a ≠ b :=
  fun e => h (congrArg (fun s => s.data[1]?) e)

theorem access_forbidden_second (z : String) :
    ("Access forbidden (403): " ++ z).data[1]? = some 'c' := by
  rw [String.data_append, List.getElem?_append, if_pos (by decide)]
  rfl

/-- C5: on a valid token, a downstream `401` makes `makeRequest` log out (so
any later `getAccessToken`, at any clock value, returns absent even though
the stored expiry had not elapsed); `403` and `429` produce their own
distinct error messages while leaving the session store exactly as it was. -/
theorem makeRequest_status_handling {α : Type} (now : Int) (s : Store)
    (t : String) (errMsg : Option String) (axMsg : String)
    (hvalid : SpotifyAuth.getAccessToken now s = (some t, s)) :
    (SpotifyApi.makeRequest now
      (SpotifyApi.FetchOutcome.axiosError (some 401) errMsg axMsg :
        SpotifyApi.FetchOutcome α) s =
      (Except.error "Authentication expired. Please log in again.",
        SpotifyAuth.logout s)) ∧
    (∀ now' : Int, SpotifyAuth.getAccessToken now' (SpotifyAuth.logout s) =
      (none, SpotifyAuth.logout s)) ∧
    ((SpotifyApi.makeRequest now
      (SpotifyApi.FetchOutcome.axiosError (some 403) errMsg axMsg :
        SpotifyApi.FetchOutcome α) s).2 = s) ∧
    (∃ msg, (SpotifyApi.makeRequest now
      (SpotifyApi.FetchOutcome.axiosError (some 403) errMsg axMsg :
        SpotifyApi.FetchOutcome α) s).1 = Except.error msg ∧
      msg ≠ "Authentication expired. Please log in again." ∧
      msg ≠ "Rate limit exceeded. Please wait a moment and try again.") ∧
    (SpotifyApi.makeRequest now
      (SpotifyApi.FetchOutcome.axiosError (some 429) errMsg axMsg :
        SpotifyApi.FetchOutcome α) s =
      (Except.error "Rate limit exceeded. Please wait a moment and try again.",
        s)) := by
  have e1 : ((some 403 : Option Int) == some 401) = false := by decide
  have e2 : ((some 429 : Option Int) == some 401) = false := by decide
  have e3 : ((some 429 : Option Int) == some 403) = false := by decide
  refine ⟨?_, ?_, ?_, ?_, ?_⟩
  · unfold SpotifyApi.makeRequest
    rw [hvalid]
    simp
  · exact fun now' => getAccessToken_of_logout now' s
  · unfold SpotifyApi.makeRequest
    rw [hvalid]
    cases hb : (match errMsg with
      | some m => strIncludes m "Development mode"
      | none => false) <;> simp [e1, hb]
  · unfold SpotifyApi.makeRequest
    rw [hvalid]
    cases hb : (match errMsg with
      | some m => strIncludes m "Development mode"
      | none => false)
    · refine ⟨"Access forbidden (403): " ++
        jsOr errMsg ("Your Spotify app may be in Development Mode. " ++
          "Check your app settings in the Spotify Developer Dashboard."),
        ?_, ?_, ?_⟩
      · simp [e1, hb]
      · exact string_ne_of_second _ _ (by rw [access_forbidden_second]; decide)
      · exact string_ne_of_second _ _ (by rw [access_forbidden_second]; decide)
    · refine ⟨"Spotify app is in Development Mode. You need to " ++
        "add your account to the app\x27s user list in the Spotify " ++
        "Developer Dashboard, or request a quota extension.", ?_, by decide, by decide⟩
      simp [e1, hb]
  · unfold SpotifyApi.makeRequest
    rw [hvalid]
    simp [e2, e3]

/-- Witness for C5: concrete valid session, concrete `401` and `429`
responses. -/
theorem makeRequest_status_handling_witness :
    SpotifyApi.makeRequest 1000
      (SpotifyApi.FetchOutcome.axiosError (some 401) none "boom" :
        SpotifyApi.FetchOutcome Nat)
      [("spotify_access_token", "t"), ("spotify_expires_at", "2000")] =
      (Except.error "Authentication expired. Please log in again.", []) ∧
    SpotifyApi.makeRequest 1000
      (SpotifyApi.FetchOutcome.axiosError (some 429) none "boom" :
        SpotifyApi.FetchOutcome Nat)
      [("spotify_access_token", "t"), ("spotify_expires_at", "2000")] =
      (Except.error "Rate limit exceeded. Please wait a moment and try again.",
        [("spotify_access_token", "t"), ("spotify_expires_at", "2000")]) := by
  have h := makeRequest_status_handling (α := Nat) 1000
    [("spotify_access_token", "t"), ("spotify_expires_at", "2000")] "t"
    none "boom" (by decide)
  have h1 := h.1
  rw [show SpotifyAuth.logout
    [("spotify_access_token", "t"), ("spotify_expires_at", "2000")] =
    ([] : Store) from by decide] at h1
  exact ⟨h1, h.2.2.2.2⟩

/-! ## C8: verifier alphabet and length; the draw is biased -/

theorem charOfByte_mem (x : Nat) : charOfByte x ∈ possibleChars.data := by
  unfold charOfByte
  have hlt : x % possibleChars.length < possibleChars.data.length := by
    have h1 : possibleChars.length = 62 := by decide
    have h2 : possibleChars.data.length = 62 := by decide
    rw [h1, h2]
    exact Nat.mod_lt _ (by omega)
  rw [List.getD_eq_getElem?_getD, List.getElem?_eq_getElem hlt]
  simp only [Option.getD_some]
  exact List.getElem_mem hlt

/-- C8 (amended): for every length `L ≥ 43` and every byte sequence supplied
by the secure random source, `generateRandomString` returns exactly `L`
characters, each from the URL-safe 62-character alphabet `A-Za-z0-9`.  The
induced per-character distribution is NOT exactly uniform (see the
counterexample): the byte is reduced `mod 62` and `256 = 4*62 + 8`, so the
first eight alphabet characters are more likely. -/
theorem generateRandomString_length_alphabet (values : List Nat) (L : Nat)
    (hlen : values.length = L) (_hmin : 43 ≤ L) :
    (generateRandomString values).length = L ∧
    ∀ c ∈ (generateRandomString values).data, c ∈ possibleChars.data := by
  constructor
  · show (generateRandomString values).data.length = L
    rw [generateRandomString_data, List.length_map, hlen]
  · intro c hc
    rw [generateRandomString_data] at hc
    obtain ⟨x, hx, rfl⟩ := List.mem_map.mp hc
    exact charOfByte_mem x

/-- Witness for C8 at the provider-minimum length 43. -/
theorem generateRandomString_length_alphabet_witness :
    (generateRandomString (List.replicate 43 0)).length = 43 ∧
    ∀ c ∈ (generateRandomString (List.replicate 43 0)).data,
      c ∈ possibleChars.data :=
  generateRandomString_length_alphabet (List.replicate 43 0) 43
    (by decide) (by decide)

set_option maxRecDepth 4000 in
/-- C8 counterexample: the per-character draw is not uniform.  Bytes 0 and 62
both map to `'A'`; over the 256 equiprobable byte values, 5 map to `'A'` but
only 4 map to `'I'`, so the induced distribution on the alphabet is biased
and the claim that each character is drawn uniformly is false. -/
theorem generateRandomString_bias_cx :
    generateRandomString [0] = "A" ∧ generateRandomString [62] = "A" ∧
    generateRandomString [8] = "I" ∧
    (List.range 256).countP (fun b => charOfByte b == 'A') = 5 ∧
    (List.range 256).countP (fun b => charOfByte b == 'I') = 4 :=
  ⟨rfl, rfl, rfl, by decide, by decide⟩

/-! ## `generateCodeChallenge` (lines 15-21)

The SHA-256 digest comes from the browser primitive `crypto.subtle.digest`
and is therefore a parameter of the embedding (a function from the verifier
to its digest bytes).  `btoa` over the byte string and the three URL-safe
replacements are embedded concretely. -/

/-- The standard `btoa` base64 alphabet. -/
def base64Chars : String :=
  "ABCDEFGHIJKLMNOPQRSTUVWXYZabcdefghijklmnopqrstuvwxyz0123456789+/"

/-- The base64 character of a sextet value. -/
def sextetChar (n : Nat) : Char := base64Chars.data.getD n '?'

/-- Base64-encode a byte list, three bytes to four characters, `=`-padded. -/
def btoaChunks : List Nat → List Char
  | [] => []
  | [b1] => [sextetChar (b1 / 4), sextetChar (b1 % 4 * 16), '=', '=']
  | [b1, b2] =>
    [sextetChar (b1 / 4), sextetChar (b1 % 4 * 16 + b2 / 16),
     sextetChar (b2 % 16 * 4), '=']
  | b1 :: b2 :: b3 :: rest =>
    sextetChar (b1 / 4) :: sextetChar (b1 % 4 * 16 + b2 / 16) ::
    sextetChar (b2 % 16 * 4 + b3 / 64) :: sextetChar (b3 % 64) ::
    btoaChunks rest

/-- JS `btoa(String.fromCharCode(...bytes))`; byte values are reduced
`mod 256` as in a `Uint8Array`. -/
def btoa (bytes : List Nat) : String :=
  ⟨btoaChunks (bytes.map (fun b => b % 256))⟩

/-- JS `s.replace(/a/g, b)` for one-character patterns. -/
def replaceChar (a b : Char) (s : String) : String :=
  ⟨s.data.map (fun c => if c = a then b else c)⟩

/-- JS `s.replace(/a/g, '')` for a one-character pattern. -/
def removeChar (a : Char) (s : String) : String :=
  ⟨s.data.filter (fun c => c != a)⟩

/-- `generateCodeChallenge` (lines 15-21): base64 of the digest with `+`
mapped to `-`, `/` mapped to `_` and `=` stripped.  `digest` stands for
SHA-256 over the UTF-8 bytes of the verifier. -/
def generateCodeChallenge (digest : String → List Nat) (codeVerifier : String) :
    String :=
  removeChar '=' (replaceChar '/' '_' (replaceChar '+' '-'
    (btoa (digest codeVerifier))))

/-- The character-set conjunct of the challenge property: whatever the digest
returns, the emitted challenge contains no `+`, `/` or `=`.  (The remaining
conjunct of the spec — distinct verifiers yielding distinct challenges — is
collision resistance of the external SHA-256 primitive and is not settled
here.) -/
theorem generateCodeChallenge_urlsafe (digest : String → List Nat)
    (codeVerifier : String) :
    '+' ∉ (generateCodeChallenge digest codeVerifier).data ∧
    '/' ∉ (generateCodeChallenge digest codeVerifier).data ∧
    '=' ∉ (generateCodeChallenge digest codeVerifier).data := by
  unfold generateCodeChallenge removeChar replaceChar
  refine ⟨?_, ?_, ?_⟩ <;> intro hmem <;>
    simp only [List.mem_filter, List.mem_map, bne_iff_ne] at hmem
  · obtain ⟨⟨c2, ⟨c1, hc1, rfl⟩, hval⟩, hne⟩ := hmem
    by_cases h1 : c1 = '+'
    · rw [h1] at hval
      exact absurd hval (by decide)
    · rw [if_neg h1] at hval
      by_cases h2 : c1 = '/'
      · rw [if_pos h2] at hval
        exact absurd hval (by decide)
      · rw [if_neg h2] at hval
        exact h1 hval
  · obtain ⟨⟨c2, ⟨c1, hc1, rfl⟩, hval⟩, hne⟩ := hmem
    by_cases h1 : c1 = '+'
    · rw [h1] at hval
      exact absurd hval (by decide)
    · rw [if_neg h1] at hval
      by_cases h2 : c1 = '/'
      · rw [if_pos h2] at hval
        exact absurd hval (by decide)
      · rw [if_neg h2] at hval
        exact h2 hval
  · obtain ⟨⟨c, hc, hval⟩, hne⟩ := hmem
    exact hne rfl
